import Mathlib

/-!
Shallow embedding of the Party2go frontend (src/frontend/src/App.js):
the session manager (`AuthProvider` with `fetchUserInfo`, `login`,
`logout` and the `useEffect` on `token`), the dashboard role dispatch,
the venue-filter query construction, and the booking price arithmetic,
together with theorems settling the specification's claims about them.

Numbers are modelled exactly over `ℚ`; nullable JavaScript values are
modelled as `Option`, with JavaScript truthiness made explicit (`null`,
`undefined`, `""` and `0` are falsy).
-/

namespace Party2go

/-- JavaScript truthiness of a nullable string: `null` and `""` are falsy. -/
def strTruthy : Option String → Bool
  | none => false
  | some s => s ≠ ""

/-- A user profile as delivered by the API; `role` may be absent. -/
structure User where
  id : String
  name : String
  email : String
  role : Option String
  deriving DecidableEq, Repr

/-- The `AuthProvider` session state: the token persisted in localStorage,
the in-memory `token` and `user` React state, and the axios default
Authorization header (App.js 17-19, 23, 48). -/
structure AuthState where
  persistedToken : Option String
  token : Option String
  user : Option User
  authHeader : Option String
  deriving DecidableEq, Repr

/-- The fully cleared session that `logout` leaves behind. -/
def clearedState : AuthState :=
  { persistedToken := none, token := none, user := none, authHeader := none }

/-- `logout` (App.js 44-49): removes the persisted token, nulls the in-memory
token and user, and deletes the default Authorization header. -/
def logout (s : AuthState) : AuthState :=
  { s with persistedToken := none, token := none, user := none, authHeader := none }

/-- `fetchUserInfo` (App.js 28-35): awaits `GET /auth/me`; on success stores
the returned profile in `user`, and on any error whatsoever calls `logout`. -/
def fetchUserInfo {ε : Type} (s : AuthState) (response : Except ε User) : AuthState :=
  match response with
  | Except.ok u => { s with user := some u }
  | Except.error _ => logout s

/-- A login/registration response payload `{ access_token, user }`. -/
structure TokenData where
  access_token : String
  user : User
  deriving DecidableEq, Repr

/-- `login` (App.js 37-42): persists the token, sets the in-memory token and
user from the payload, and sets the default Authorization header. -/
def login (s : AuthState) (td : TokenData) : AuthState :=
  { s with
    persistedToken := some td.access_token,
    token := some td.access_token,
    user := some td.user,
    authHeader := some ("Bearer " ++ td.access_token) }

/-- The observable side effects of the `useEffect` on `token` (App.js 21-26). -/
inductive AuthEvent where
  | setAuthHeader (value : String)
  | fetchProfile
  deriving DecidableEq, Repr

/-- The body of `useEffect(..., [token])` (App.js 21-26): when the in-memory
token is truthy, set the Authorization header to `Bearer <token>` and run
`fetchUserInfo`, `response` being the server's answer to `GET /auth/me`;
when the token is null or empty, do nothing. -/
def tokenEffect {ε : Type} (s : AuthState) (response : Except ε User) :
    AuthState × List AuthEvent :=
  match s.token with
  | none => (s, [])
  | some t =>
    if t = "" then (s, [])
    else (fetchUserInfo { s with authHeader := some ("Bearer " ++ t) } response,
          [AuthEvent.setAuthHeader ("Bearer " ++ t), AuthEvent.fetchProfile])

/-- The provider state on mount, before any effect runs: `user` starts null
and `token` is read from localStorage (App.js 18-19). -/
def initialState (persisted : Option String) : AuthState :=
  { persistedToken := persisted, token := persisted, user := none, authHeader := none }

/-- Session restore on process start: the mount state followed by the first
run of the token effect. -/
def restore {ε : Type} (persisted : Option String) (response : Except ε User) :
    AuthState × List AuthEvent :=
  tokenEffect (initialState persisted) response

/-- A complete login step: the `login` call followed by the re-run of the
token effect, which React fires exactly when the token state changed. -/
def loginStep {ε : Type} (s : AuthState) (td : TokenData) (response : Except ε User) :
    AuthState × List AuthEvent :=
  let s' := login s td
  if s'.token = s.token then (s', []) else tokenEffect s' response

/-- `isAuthenticated` exposed by the provider (App.js 52): `!!token`. -/
def isAuthenticated (token : Option String) : Bool := strTruthy token

/-- The four ways the `/dashboard` route can render. -/
inductive DashboardView where
  | redirectLogin
  | ownerDashboard
  | adminDashboard
  | userDashboard
  deriving DecidableEq, Repr

/-- `Dashboard` (App.js 981-989): redirect to `/login` when `user` is null,
else branch on `user.role`, defaulting to the personal dashboard. -/
def Dashboard (user : Option User) : DashboardView :=
  match user with
  | none => DashboardView.redirectLogin
  | some u =>
    if u.role = some ("venue_owner") then DashboardView.ownerDashboard
    else if u.role = some ("admin") then DashboardView.adminDashboard
    else DashboardView.userDashboard

/-- A venue's price fields; `none` models a missing (`undefined`/`null`)
field. Other venue fields play no role in the pricing claims beyond being
copied into the payload. -/
structure Venue where
  id : String
  name : String
  price_per_hour : Option ℚ
  price_per_day : Option ℚ
  deriving DecidableEq, Repr

/-- JavaScript `a || b` for a nullable number `a`: `null`, `undefined` and
`0` are falsy, so `b` is used for all of them. -/
def jsOrQ (a : Option ℚ) (b : ℚ) : ℚ :=
  match a with
  | none => b
  | some x => if x = 0 then b else x

/-- The effective hourly price
`venue.price_per_hour || venue.price_per_day || 100`
(App.js 526, 619, 755-763). -/
def pricePerHour (v : Venue) : ℚ :=
  jsOrQ v.price_per_hour (jsOrQ v.price_per_day 100)

/-- The venue and money fields of the booking payload built by the booking
form's `handleSubmit` (App.js 618-628). -/
structure BookingPayload where
  venue_id : String
  venue_name : String
  price_per_hour : ℚ
  total_amount : ℚ
  service_fee : ℚ
  owner_payout : ℚ
  deriving DecidableEq, Repr

/-- `handleSubmit`'s `bookingData` (App.js 618-628): a fixed 4-hour
duration, a 2.5% service fee and a 97.5% owner payout. -/
def bookingData (v : Venue) : BookingPayload :=
  let p := pricePerHour v
  { venue_id := v.id, venue_name := v.name, price_per_hour := p,
    total_amount := p * 4,
    service_fee := p * 4 * 0.025,
    owner_payout := p * 4 * 0.975 }

/-- Rounding to two decimals, as `toFixed(2)` displays a nonnegative
amount. -/
def round2 (q : ℚ) : ℚ := (Int.floor (q * 100 + 1 / 2) : ℚ) / 100

/-- The "Total estimate" line of the booking form's pricing box
(App.js 763): `((... ) * 4 * 1.025).toFixed(2)`. -/
def displayedTotalEstimate (v : Venue) : ℚ :=
  round2 (pricePerHour v * 4 * 1.025)

/-- The venue-list filter fields, each a text-input string, in the insertion
order of the `filters` object literal (App.js 275-281). -/
structure Filters where
  location : String
  event_type : String
  min_price : String
  max_price : String
  min_capacity : String
  deriving DecidableEq, Repr

/-- `Object.entries(filters)` in the object's insertion order (App.js 291). -/
def filterEntries (f : Filters) : List (String × String) :=
  [("location", f.location), ("event_type", f.event_type),
   ("min_price", f.min_price), ("max_price", f.max_price),
   ("min_capacity", f.min_capacity)]

/-- The `URLSearchParams` built by `fetchVenues` (App.js 290-293): each
entry is appended, in order, iff its value is truthy (non-empty). -/
def fetchVenuesParams (f : Filters) : List (String × String) :=
  (filterEntries f).foldl (fun ps kv => if kv.2 ≠ "" then ps ++ [kv] else ps) []

/-- The UTF-8 bytes of a character, as byte values. -/
def utf8Bytes (c : Char) : List Nat :=
  let n := c.toNat
  if n < 128 then [n]
  else if n < 2048 then [192 + n / 64, 128 + n % 64]
  else if n < 65536 then [224 + n / 4096, 128 + n / 64 % 64, 128 + n % 64]
  else [240 + n / 262144, 128 + n / 4096 % 64, 128 + n / 64 % 64, 128 + n % 64]

/-- An uppercase hexadecimal digit. -/
def hexDigit (n : Nat) : Char :=
  if n < 10 then Char.ofNat (48 + n) else Char.ofNat (55 + n)

/-- One byte under `application/x-www-form-urlencoded` serialization, as
`URLSearchParams.toString` produces it: ASCII alphanumerics and `*-._`
stand for themselves, a space becomes `+`, every other byte is
percent-encoded. -/
def formEncodeByte (b : Nat) : String :=
  if b = 32 then ("+")
  else if b = 42 ∨ b = 45 ∨ b = 46 ∨ (48 ≤ b ∧ b ≤ 57) ∨
          (65 ≤ b ∧ b ≤ 90) ∨ b = 95 ∨ (97 ≤ b ∧ b ≤ 122) then
    String.singleton (Char.ofNat b)
  else ("%") ++ String.singleton (hexDigit (b / 16)) ++ String.singleton (hexDigit (b % 16))

/-- `application/x-www-form-urlencoded` encoding of a string, applied by
`URLSearchParams.toString` to every name and value. -/
def formEncode (s : String) : String :=
  String.join (((s.data.map utf8Bytes).flatten).map formEncodeByte)

/-- `params.toString()`: the appended pairs, each serialized as
`name=value` with both sides form-encoded, joined with `&`. -/
def paramsToString (ps : List (String × String)) : String :=
  String.intercalate ("&") (ps.map fun kv => formEncode kv.1 ++ ("=") ++ formEncode kv.2)

/-- The query string `fetchVenues` requests (App.js 295). -/
def fetchVenuesQuery (f : Filters) : String :=
  paramsToString (fetchVenuesParams f)

/-- The `URLSearchParams` built by the home page's `handleSearch`
(App.js 146-151): location, then event type, each appended iff truthy. -/
def handleSearchParams (searchLocation eventType : String) : List (String × String) :=
  let ps : List (String × String) := []
  let ps := if searchLocation ≠ "" then ps ++ [("location", searchLocation)] else ps
  let ps := if eventType ≠ "" then ps ++ [("event_type", eventType)] else ps
  ps

/-- A fixed sample profile used to instantiate theorems at concrete inputs. -/
def defaultUser : User :=
  { id := ("u1"), name := ("Alice"), email := ("alice@example.com"), role := some ("user") }

/-- A second fixed sample profile, distinct from `defaultUser`. -/
def otherUser : User :=
  { id := ("u2"), name := ("Bob"), email := ("bob@example.com"), role := some ("user") }

/-- Appending each entry whose value is truthy, in order, builds exactly the
sublist of truthy-valued entries. -/
theorem appendIfTruthy_eq_filter (l acc : List (String × String)) :
    l.foldl (fun ps kv => if kv.2 ≠ "" then ps ++ [kv] else ps) acc
      = acc ++ l.filter (fun kv => kv.2 ≠ "") := by
  induction l generalizing acc with
  | nil => simp
  | cons a l ih =>
    by_cases h : a.2 = ""
    · rw [List.foldl_cons, List.filter_cons_of_neg (by simpa using h), ← ih]
      congr 1
      exact if_neg (fun hc => hc h)
    · rw [List.foldl_cons, ih, List.filter_cons_of_pos (by simpa using h)]
      show (if a.2 ≠ "" then acc ++ [a] else acc) ++ _ = _
      rw [if_pos h, List.append_assoc, List.singleton_append]

/-- The JavaScript numeric fallback never returns 0 when its default is
nonzero. -/
theorem jsOrQ_ne_zero (a : Option ℚ) (b : ℚ) (hb : b ≠ 0) : jsOrQ a b ≠ 0 := by
  cases a with
  | none => exact hb
  | some x =>
    show (if x = 0 then b else x) ≠ 0
    by_cases hx : x = 0
    · rw [if_pos hx]; exact hb
    · rw [if_neg hx]; exact hx

/-- C1: for every session restored from a persisted (non-empty) token whose
profile fetch then fails, for any cause whatsoever, the session is fully
torn down: persisted token removed, in-memory token and user null,
Authorization header deleted — and the resulting state does not depend on
the failure's cause. -/
theorem restore_failure_clears_session {ε : Type} (t : String) (ht : t ≠ "") (e e' : ε) :
    (restore (some t) (Except.error e)).1 = clearedState ∧
    (restore (some t) (Except.error e)).1.persistedToken = none ∧
    (restore (some t) (Except.error e)).1.token = none ∧
    (restore (some t) (Except.error e)).1.user = none ∧
    (restore (some t) (Except.error e)).1.authHeader = none ∧
    (restore (some t) (Except.error e)).1 = (restore (some t) (Except.error e')).1 := by
  simp [restore, tokenEffect, initialState, fetchUserInfo, logout, clearedState, ht]

/-- Witness: the restore-failure teardown at a concrete token and error. -/
theorem restore_failure_clears_session_witness :
    (restore (some ("tok")) (Except.error () : Except Unit User)).1 = clearedState :=
  (restore_failure_clears_session ("tok") (by decide) () ()).1

/-- C2: the dashboard role dispatch: role `user` renders exactly the personal
dashboard, `venue_owner` exactly the owner dashboard, `admin` exactly the
admin dashboard, and a session without a resolved user always redirects to
login. -/
theorem dashboard_role_dispatch (u : User) :
    (u.role = some ("user") → Dashboard (some u) = DashboardView.userDashboard) ∧
    (u.role = some ("venue_owner") → Dashboard (some u) = DashboardView.ownerDashboard) ∧
    (u.role = some ("admin") → Dashboard (some u) = DashboardView.adminDashboard) ∧
    Dashboard none = DashboardView.redirectLogin := by
  refine ⟨fun h => ?_, fun h => ?_, fun h => ?_, rfl⟩ <;> simp [Dashboard, h]

/-- Witness: the three roles at concrete users. -/
theorem dashboard_role_dispatch_witness :
    Dashboard (some ⟨("1"), ("A"), ("a"), some ("user")⟩) = DashboardView.userDashboard ∧
    Dashboard (some ⟨("2"), ("B"), ("b"), some ("venue_owner")⟩) = DashboardView.ownerDashboard ∧
    Dashboard (some ⟨("3"), ("C"), ("c"), some ("admin")⟩) = DashboardView.adminDashboard :=
  ⟨(dashboard_role_dispatch _).1 rfl,
   (dashboard_role_dispatch _).2.1 rfl,
   (dashboard_role_dispatch _).2.2.1 rfl⟩

/-- C3: with effective hourly price P, the submitted payload satisfies
total_amount = 4P, service_fee = 4P·0.025, owner_payout = 4P·0.975, the
displayed total estimate is 4P·1.025 rounded to two decimals and equals
total_amount + service_fee before rounding; for P = 100 the payload holds
400 / 10 / 390. -/
theorem booking_money_math (v : Venue) :
    (bookingData v).total_amount = 4 * pricePerHour v ∧
    (bookingData v).service_fee = 4 * pricePerHour v * 0.025 ∧
    (bookingData v).owner_payout = 4 * pricePerHour v * 0.975 ∧
    (bookingData v).total_amount + (bookingData v).service_fee
      = 4 * pricePerHour v * 1.025 ∧
    displayedTotalEstimate v = round2 (4 * pricePerHour v * 1.025) ∧
    (bookingData ⟨("v1"), ("V"), some 100, none⟩).total_amount = 400 ∧
    (bookingData ⟨("v1"), ("V"), some 100, none⟩).service_fee = 10 ∧
    (bookingData ⟨("v1"), ("V"), some 100, none⟩).owner_payout = 390 := by
  have hta : (bookingData v).total_amount = pricePerHour v * 4 := rfl
  have hsf : (bookingData v).service_fee = pricePerHour v * 4 * 0.025 := rfl
  have hop : (bookingData v).owner_payout = pricePerHour v * 4 * 0.975 := rfl
  refine ⟨?_, ?_, ?_, ?_, ?_,
    by norm_num [bookingData, pricePerHour, jsOrQ],
    by norm_num [bookingData, pricePerHour, jsOrQ],
    by norm_num [bookingData, pricePerHour, jsOrQ]⟩
  · rw [hta]; ring
  · rw [hsf]; ring
  · rw [hop]; ring
  · rw [hta, hsf]; ring
  · show round2 (pricePerHour v * 4 * 1.025) = round2 (4 * pricePerHour v * 1.025)
    have h : pricePerHour v * 4 * 1.025 = 4 * pricePerHour v * 1.025 := by ring
    rw [h]

/-- C4: the venue query contains exactly the truthy (non-empty) filter
entries in the fixed key order, and the Austin/wedding filters yield exactly
`location=Austin&event_type=wedding`, as does the home-page search. -/
theorem venue_query_only_truthy_filters (f : Filters) :
    fetchVenuesParams f = (filterEntries f).filter (fun kv => kv.2 ≠ "") ∧
    fetchVenuesQuery ⟨("Austin"), ("wedding"), (""), (""), ("")⟩
      = ("location=Austin&event_type=wedding") ∧
    paramsToString (handleSearchParams ("Austin") ("wedding"))
      = ("location=Austin&event_type=wedding") := by
  refine ⟨?_, by decide, by decide⟩
  unfold fetchVenuesParams
  rw [appendIfTruthy_eq_filter]
  simp

/-- C5: `logout` reaches the fully cleared session from any prior state, and
is idempotent. -/
theorem logout_clears_and_idempotent (s : AuthState) :
    logout s = clearedState ∧
    (logout s).persistedToken = none ∧ (logout s).token = none ∧
    (logout s).user = none ∧ (logout s).authHeader = none ∧
    logout (logout s) = logout s := by
  simp [logout, clearedState]

/-- C6 fails as stated: after a successful login (from a logged-out state,
with a fresh token), the token-change effect still issues a further profile
fetch. -/
theorem login_refetch_counterexample :
    AuthEvent.fetchProfile ∈
      (loginStep (initialState none) ⟨("tok"), defaultUser⟩
        (Except.ok defaultUser : Except Unit User)).2 := by
  decide

/-- C6 (amended): a successful login persists the token, sets the Bearer
header, and sets the in-memory user from the login payload itself; however,
when the token value changed, the token effect then issues a further profile
fetch, whose successful result overwrites the in-memory user. -/
theorem login_persists_then_refetches {ε : Type} (s : AuthState) (td : TokenData)
    (response : Except ε User) :
    (login s td).persistedToken = some td.access_token ∧
    (login s td).token = some td.access_token ∧
    (login s td).user = some td.user ∧
    (login s td).authHeader = some ("Bearer " ++ td.access_token) ∧
    (some td.access_token ≠ s.token → td.access_token ≠ "" →
      (loginStep s td response).2
        = [AuthEvent.setAuthHeader ("Bearer " ++ td.access_token), AuthEvent.fetchProfile]) ∧
    (∀ u, response = Except.ok u → some td.access_token ≠ s.token → td.access_token ≠ "" →
      (loginStep s td response).1.user = some u) := by
  refine ⟨rfl, rfl, rfl, rfl, fun hch hne => ?_, fun u hr hch hne => ?_⟩
  · simp [loginStep, login, tokenEffect, hch, hne]
  · subst hr
    simp [loginStep, login, tokenEffect, fetchUserInfo, hch, hne]

/-- Witness: login at a concrete state, payload and fetched profile. -/
theorem login_persists_then_refetches_witness :
    (login clearedState ⟨("tok"), defaultUser⟩).user = some defaultUser ∧
    (loginStep clearedState ⟨("tok"), defaultUser⟩
      (Except.ok otherUser : Except Unit User)).1.user = some otherUser := by
  have h := login_persists_then_refetches clearedState ⟨("tok"), defaultUser⟩
    (Except.ok otherUser : Except Unit User)
  exact ⟨h.2.2.1, h.2.2.2.2.2 otherUser rfl (by decide) (by decide)⟩

/-- C7 fails as stated: a persisted empty-string token is present, yet the
restore effect neither sets the Authorization header nor issues a profile
fetch. -/
theorem restore_empty_token_counterexample :
    (some ("") : Option String).isSome = true ∧
    restore (some ("")) (Except.error () : Except Unit User)
      = (initialState (some ("")), []) ∧
    (restore (some ("")) (Except.error () : Except Unit User)).1.authHeader = none := by
  refine ⟨rfl, by decide, by decide⟩

/-- C7 (amended): on process start the persisted token is read; iff it is
present and non-empty, restore attaches `Bearer <token>` and issues exactly
one profile-resolution request; otherwise it neither sets the header nor
fetches, leaving the mount state untouched. -/
theorem restore_header_and_fetch_iff_truthy {ε : Type}
    (persisted : Option String) (response : Except ε User) :
    (∀ t, persisted = some t → t ≠ "" →
      (restore persisted response).2
        = [AuthEvent.setAuthHeader ("Bearer " ++ t), AuthEvent.fetchProfile]) ∧
    (strTruthy persisted = false →
      restore persisted response = (initialState persisted, [])) ∧
    ((restore persisted response).2 ≠ [] ↔ strTruthy persisted = true) := by
  cases persisted with
  | none => simp [restore, tokenEffect, initialState, strTruthy]
  | some t =>
    by_cases ht : t = "" <;>
      simp [restore, tokenEffect, initialState, strTruthy, ht]

/-- Witness: restore at a concrete non-empty token. -/
theorem restore_header_and_fetch_iff_truthy_witness :
    (restore (some ("tok")) (Except.ok defaultUser : Except Unit User)).2
      = [AuthEvent.setAuthHeader ("Bearer " ++ ("tok")), AuthEvent.fetchProfile] :=
  (restore_header_and_fetch_iff_truthy (some ("tok"))
    (Except.ok defaultUser : Except Unit User)).1 ("tok") rfl (by decide)

/-- C8: any resolved user whose role is neither `venue_owner` nor `admin` —
empty, missing, or arbitrary — falls through to the personal dashboard. -/
theorem dashboard_unknown_role_defaults_to_user (u : User)
    (h1 : u.role ≠ some ("venue_owner")) (h2 : u.role ≠ some ("admin")) :
    Dashboard (some u) = DashboardView.userDashboard := by
  simp [Dashboard, h1, h2]

/-- Witness: the fall-through at an arbitrary, a missing and an empty role. -/
theorem dashboard_unknown_role_defaults_to_user_witness :
    Dashboard (some ⟨("4"), ("D"), ("d"), some ("banana")⟩) = DashboardView.userDashboard ∧
    Dashboard (some ⟨("5"), ("E"), ("e"), none⟩) = DashboardView.userDashboard ∧
    Dashboard (some ⟨("6"), ("F"), ("f"), some ("")⟩) = DashboardView.userDashboard :=
  ⟨dashboard_unknown_role_defaults_to_user _ (by decide) (by decide),
   dashboard_unknown_role_defaults_to_user _ (by decide) (by decide),
   dashboard_unknown_role_defaults_to_user _ (by decide) (by decide)⟩

/-- C9: the dashboard redirect is decided on the resolved user being null,
not on token presence: with a non-empty token and a null user the dashboard
redirects to login although `isAuthenticated` is true. -/
theorem dashboard_redirects_on_null_user (s : AuthState) (t : String)
    (hu : s.user = none) (ht : s.token = some t) (hne : t ≠ "") :
    Dashboard s.user = DashboardView.redirectLogin ∧
    isAuthenticated s.token = true := by
  rw [hu, ht]
  exact ⟨rfl, by simp [isAuthenticated, strTruthy, hne]⟩

/-- Witness: a concrete state with a token but no resolved user. -/
theorem dashboard_redirects_on_null_user_witness :
    Dashboard (none : Option User) = DashboardView.redirectLogin ∧
    isAuthenticated (some ("tok")) = true :=
  dashboard_redirects_on_null_user
    ⟨some ("tok"), some ("tok"), none, some ("Bearer tok")⟩ ("tok") rfl rfl (by decide)

/-- C10: a falsy hourly price (0 or missing) falls through to the day price,
and to 100 when that is falsy too; consequently the effective price, and the
booked total, are never 0 — even when the venue lists an hourly price of 0. -/
theorem price_fallback_treats_falsy_as_absent (v : Venue) :
    (v.price_per_hour = some 0 ∨ v.price_per_hour = none →
      pricePerHour v = jsOrQ v.price_per_day 100) ∧
    (v.price_per_day = some 0 ∨ v.price_per_day = none →
      jsOrQ v.price_per_day 100 = 100) ∧
    pricePerHour v ≠ 0 ∧
    (bookingData v).total_amount ≠ 0 := by
  have hnz : pricePerHour v ≠ 0 :=
    jsOrQ_ne_zero _ _ (jsOrQ_ne_zero _ _ (by norm_num))
  refine ⟨fun h => ?_, fun h => ?_, hnz, ?_⟩
  · rcases h with h | h <;> simp [pricePerHour, jsOrQ, h]
  · rcases h with h | h <;> simp [jsOrQ, h]
  · show pricePerHour v * 4 ≠ 0
    exact mul_ne_zero hnz (by norm_num)

/-- Witness: the double fallback at a venue listing an hourly price of 0 and
no day price. -/
theorem price_fallback_treats_falsy_as_absent_witness :
    pricePerHour ⟨("v0"), ("Z"), some 0, none⟩ = 100 ∧
    (bookingData ⟨("v0"), ("Z"), some 0, none⟩).total_amount ≠ 0 := by
  have h := price_fallback_treats_falsy_as_absent ⟨("v0"), ("Z"), some 0, none⟩
  have h1 := h.1 (Or.inl rfl)
  have h2 := h.2.1 (Or.inr rfl)
  exact ⟨by rw [h1, h2], h.2.2.2⟩

end Party2go
